import Mathlib

/-!
Verification of the YARN kernel lifecycle manager
(`yarn_kernel_provider/yarn.py`, class `YarnKernelLifecycleManager`).

The cluster API client (`yarn_api_client.ResourceManager`), the local process
launcher and the `RemoteKernelLifecycleManager` base class are external
collaborators: their responses are passed in as explicit parameters, and the
base-class operations (`super().poll/kill/wait/cleanup`) are modelled as
acting only on resources outside the YARN-specific session fields, per the
spec's description of them as external teardown/signalling of the local
process.

Python values are embedded as follows: a variable that can hold `None` or a
string becomes `Option String`; Python truthiness of such a variable
(`if self.application_id:`) is `pyTruthy` (false for `None` and for the empty
string); an uncaught Python exception is an `Except.error` outcome.
-/

namespace YarnKP

/-- A YARN application record as returned by the cluster REST API: the JSON
fields the manager reads (`id`, `name`, `state`, `amHostHttpAddress`). -/
structure App where
  id : String
  name : String
  state : String
  amHostHttpAddress : String
  deriving Repr, DecidableEq

/-- `YarnKernelLifecycleManager.initial_states`. -/
def initial_states : List String := ["NEW", "SUBMITTED", "ACCEPTED", "RUNNING"]

/-- `YarnKernelLifecycleManager.final_states` (FAILED deliberately absent). -/
def final_states : List String := ["FINISHED", "KILLED"]

/-- The YARN-specific mutable fields of a kernel session
(`self.application_id`, `self.kernel_id`, `self.assigned_host`,
`self.assigned_ip`, `self.local_proc` as an optional pid, `self.start_time`). -/
structure Session where
  application_id : Option String
  kernel_id : String
  assigned_host : String
  assigned_ip : String
  local_proc : Option Nat
  start_time : Nat
  deriving Repr, DecidableEq

/-- Python truthiness of a `None`-or-string variable: `None` and `""` are
falsy, every other string is truthy. -/
def pyTruthy : Option String → Bool
  | none => false
  | some s => s != ""

/-- An uncaught Python exception escaping a lifecycle operation. -/
inductive KernelError where
  /-- `AttributeError` from dereferencing a `None` response
  (`response.data` with `response = None`). -/
  | attributeError
  /-- `self.log_and_raise(http_status_code, reason)`. -/
  | raised (code : Nat) (reason : String)
  /-- a failure raised by the base class `detect_launch_failure`. -/
  | launchFailureDetected
  deriving Repr, DecidableEq

/-- Whether `pat` occurs as a substring of the character list `l`
(Python `l.find(pat) >= 0`). -/
def listContainsSub (pat : List Char) : List Char → Bool
  | [] => pat.isEmpty
  | c :: t => pat.isPrefixOf (c :: t) || listContainsSub pat t

/-- Whether `pat` occurs as a substring of `s` (Python `s.find(pat) >= 0`). -/
def strContainsSub (s pat : String) : Bool := listContainsSub pat.data s.data

/-- The name filter of `_query_app_by_name`:
`app.get('name', '').find(kernel_id) >= 0`. -/
def matchesName (kernelId : String) (a : App) : Bool := strContainsSub a.name kernelId

/-- Python string `<` on character lists: lexicographic comparison by code
point, a strict prefix comparing below the longer string. -/
def listLtB : List Char → List Char → Bool
  | [], [] => false
  | [], _ :: _ => true
  | _ :: _, [] => false
  | a :: as, b :: bs =>
    if a.toNat < b.toNat then true
    else if b.toNat < a.toNat then false
    else listLtB as bs

/-- Python string `<` (used as `>` with the arguments flipped in
`_query_app_by_name`). -/
def strLtB (a b : String) : Bool := listLtB a.data b.data

/-- One step of the selection loop of `_query_app_by_name`: the accumulator is
`(top_most_app_id, target_app)`, and an application replaces it when its name
matches and its id is strictly greater (Python string `>`, i.e. lexicographic
comparison by code point). -/
def topStep (kernelId : String) (acc : String × Option App) (app : App) :
    String × Option App :=
  if matchesName kernelId app && strLtB acc.1 app.id then (app.id, some app)
  else acc

/-- `_query_app_by_name`: `data` is the result of
`resource_mgr.cluster_applications(...).data`, with `none` covering a raised
transport exception (caught and logged there) as well as a malformed result
(the `type(data) is dict and ...` guard); on a well-formed result the
application list is scanned for the greatest-id name match, starting from
`top_most_app_id = ''`, `target_app = None`. -/
def query_app_by_name (kernelId : String) (data : Option (List App)) : Option App :=
  match data with
  | none => none
  | some apps => (apps.foldl (topStep kernelId) ("", none)).2

/-- `_get_application_id(ignore_final_states)`: when `self.application_id` is
falsy, query by name; with `ignore_final_states` the state condition rejects a
selected app in a final state; an app is adopted when its id is non-empty and
the state condition holds.  Returns the updated session; the Python return
value is the updated session's `application_id`. -/
def get_application_id (s : Session) (byName : Option (List App))
    (ignoreFinalStates : Bool) : Session :=
  if pyTruthy s.application_id then s
  else
    match query_app_by_name s.kernel_id byName with
    | none => s
    | some app =>
      let state_condition : Bool := !ignoreFinalStates || decide (app.state ∉ final_states)
      if app.id.length > 0 && state_condition then
        { s with application_id := some app.id }
      else s

/-- `_query_app_state_by_id`: `resp` is the response of
`resource_mgr.cluster_application_state(...)` (`none` when that call raised,
which the `except` clause catches and logs; `some st` a response whose
`data['state']` is `st`).  The final line `return response.data['state']` runs
unconditionally, so a `None` response raises `AttributeError`. -/
def query_app_state_by_id (resp : Option String) : Except KernelError String :=
  match resp with
  | none => Except.error KernelError.attributeError
  | some st => Except.ok st

/-- `poll`: result `none` models Python `None` (alive), `some false` models
`False` (dead).  `byName` is the cluster listing consumed by
`_get_application_id()` (no final-state exclusion); `stateResp` the response
to the single `_query_app_state_by_id` call. -/
def poll (s : Session) (byName : Option (List App)) (stateResp : Option String) :
    Except KernelError (Option Bool × Session) :=
  let s1 := get_application_id s byName false
  if pyTruthy s1.application_id then
    match query_app_state_by_id stateResp with
    | Except.error e => Except.error e
    | Except.ok st =>
      if st ∈ initial_states then Except.ok (none, s1)
      else Except.ok (some false, s1)
  else Except.ok (some false, s1)

/-- `max_poll_attempts` (env `EG_MAX_POLL_ATTEMPTS`, default 10). -/
def max_poll_attempts : Nat := 10

/-- Observable events of an operation, in order: the kill attempt inside
`handle_timeout`, a `log_and_raise`, and a `receive_connection_info` request. -/
inductive Ev where
  | killAttempt
  | raiseEv (code : Nat)
  | connRequest
  deriving Repr, DecidableEq

/-- The default `reason` of `handle_timeout` (no application id resolved). -/
def reason_no_app (timeout : Nat) : String :=
  "Application ID is None. Failed to submit a new application to YARN within " ++
  toString timeout ++ " seconds.  Check server log for more information."

/-- The `reason` of `handle_timeout` when the application is known but its
state is not RUNNING. -/
def reason_unavailable (timeInterval : Nat) (appId : String) (timeout : Nat) : String :=
  "YARN resources unavailable after " ++ toString timeInterval ++
  " seconds for app " ++ appId ++ ", launch timeout: " ++ toString timeout ++
  "!  Check YARN configuration."

/-- The `reason` of `handle_timeout` when the application is RUNNING but no
connection file ever arrived. -/
def reason_running_no_conn (appId : String) (timeout : Nat) : String :=
  "App " ++ appId ++ " is RUNNING, but waited too long (" ++ toString timeout ++
  " secs) to get connection file.  Check YARN logs for more information."

/-- The message passed to `log_and_raise` by `handle_timeout`. -/
def timeout_message (kernelId reason : String) : String :=
  "KernelID: '" ++ kernelId ++ "' launch timeout due to: " ++ reason

/-- The message passed to `log_and_raise` by `confirm_remote_startup` on a
final state during startup. -/
def startup_error_message (kernelId appId state : String) : String :=
  "KernelID: '" ++ kernelId ++ "', ApplicationID: '" ++ appId ++
  "' unexpectedly found in state '" ++ state ++ "' during kernel startup!"

/-- The state-confirmation `while` loop of `kill`: entered with `i = 1` and
the state from the first query; while the state is not final and
`i <= max_poll_attempts`, sleeps one poll interval, re-queries
(`states i` is the response to the query of attempt `i`) and increments `i`.
Returns the last state together with the final value of `i`. -/
def kill_wait (states : Nat → Option String) (maxPoll : Nat) (st : String)
    (i : Nat) : Except KernelError (String × Nat) :=
  if _h : st ∉ final_states ∧ i ≤ maxPoll then
    match query_app_state_by_id (states i) with
    | Except.error e => Except.error e
    | Except.ok st2 => kill_wait states maxPoll st2 (i + 1)
  else Except.ok (st, i)
termination_by maxPoll + 1 - i
decreasing_by simp_wf; omega

/-- `kill`: resolves the application id (`byName` being the listing consumed
when it was not yet assigned), issues `_kill_app_by_id` (response ignored,
exceptions swallowed there), polls state in the bounded loop, and falls back
to `super().kill()` — signalling the local process, an external collaborator
whose result is `superKillResult` and which leaves the YARN-specific session
fields untouched — whenever a final state was not confirmed. -/
def kill (s : Session) (byName : Option (List App)) (states : Nat → Option String)
    (superKillResult : Option Bool) (maxPoll : Nat) :
    Except KernelError (Option Bool × Session) :=
  let s1 := get_application_id s byName false
  if pyTruthy s1.application_id then
    match query_app_state_by_id (states 0) with
    | Except.error e => Except.error e
    | Except.ok st0 =>
      match kill_wait states maxPoll st0 1 with
      | Except.error e => Except.error e
      | Except.ok (st, _) =>
        if st ∈ final_states then Except.ok (none, s1)
        else Except.ok (superKillResult, s1)
  else Except.ok (superKillResult, s1)

/-- `cleanup`: when a local process handle is held, polls/kills/waits it (base
class operations on the external process, which do not touch the session
fields) and releases the handle; then resets `application_id`; finally
delegates to `super().cleanup()`, the base-class teardown of resources outside
this session model. -/
def cleanup (s : Session) : Session :=
  let s1 := if s.local_proc.isSome then { s with local_proc := none } else s
  { s1 with application_id := none }

/-- `handle_timeout`: after sleeping one poll interval, when the elapsed time
exceeds the launch timeout it classifies the failure (`reason_no_app` with
code 500 by default; when `_get_application_id(True)` resolves, the state is
queried and yields `reason_unavailable` with 503 when not RUNNING, otherwise
`reason_running_no_conn` with 500), then kills the application, then raises.
The state query runs before the kill, so its `AttributeError` (none
`stateResp`) escapes with no kill attempted; an exception escaping `kill`
likewise pre-empts `log_and_raise`. -/
def handle_timeout (s : Session) (elapsed timeout : Nat)
    (byName : Option (List App)) (stateResp : Option String)
    (killByName : Option (List App)) (killStates : Nat → Option String)
    (superKillResult : Option Bool) (maxPoll : Nat) :
    List Ev × Except KernelError Session :=
  if elapsed > timeout then
    let s1 := get_application_id s byName true
    let classified : Except KernelError (Nat × String) :=
      if pyTruthy s1.application_id then
        match query_app_state_by_id stateResp with
        | Except.error e => Except.error e
        | Except.ok st =>
          if st ≠ "RUNNING" then
            Except.ok (503, reason_unavailable elapsed (s1.application_id.getD "") timeout)
          else
            Except.ok (500, reason_running_no_conn (s1.application_id.getD "") timeout)
      else Except.ok (500, reason_no_app timeout)
    match classified with
    | Except.error e => ([], Except.error e)
    | Except.ok (code, reason) =>
      match kill s1 killByName killStates superKillResult maxPoll with
      | Except.error e => ([Ev.killAttempt], Except.error e)
      | Except.ok _ =>
        ([Ev.killAttempt, Ev.raiseEv code],
         Except.error (KernelError.raised code (timeout_message s.kernel_id reason)))
  else ([], Except.ok s)

/-- `app_state in final_states` where `app_state` may be Python `None`. -/
def stateIsFinal : Option String → Bool
  | none => false
  | some st => decide (st ∈ final_states)

/-- `_get_application_state`: `appResp` is `_query_app_by_id`'s result (`none`
on exception or malformed data); reads the state (falsy, i.e. empty, means
`None`), and on the first sighting of a truthy `amHostHttpAddress` records the
host part (before the first colon) and its DNS resolution (`dns` models
`socket.gethostbyname`). -/
def get_application_state (s : Session) (appResp : Option App)
    (dns : String → String) : Option String × Session :=
  match appResp with
  | none => (none, s)
  | some app =>
    let app_state := if app.state.isEmpty then none else some app.state
    if s.assigned_host = "" ∧ ¬ app.amHostHttpAddress.isEmpty then
      let host := (app.amHostHttpAddress.splitOn ":").headD ""
      (app_state, { s with assigned_host := host, assigned_ip := dns host })
    else (app_state, s)

/-- The collaborator responses consumed by one iteration of the
`confirm_remote_startup` loop. -/
structure IterEnv where
  elapsed : Nat
  byName : Option (List App)
  stateResp : Option String
  killByName : Option (List App)
  killStates : Nat → Option String
  superKillResult : Option Bool
  appById : Option App
  dns : String → String
  recvConnInfo : Bool
  detect : Option KernelError

/-- Outcome of one iteration of the `confirm_remote_startup` loop. -/
inductive IterResult where
  | connected (s : Session)
  | again (s : Session)
  | raisedErr (e : KernelError)

/-- One iteration of the `while not ready_to_connect` loop of
`confirm_remote_startup`: `handle_timeout`, then `_get_application_id(True)`;
when resolved, `_get_application_state`, the fatal final-state check, and —
only when an assigned host is known — the `receive_connection_info` request;
when unresolved, `detect_launch_failure` (base class, modelled by
`env.detect`: `some e` when it raises). -/
def confirm_iteration (s : Session) (timeout maxPoll : Nat) (env : IterEnv) :
    List Ev × IterResult :=
  match handle_timeout s env.elapsed timeout env.byName env.stateResp
      env.killByName env.killStates env.superKillResult maxPoll with
  | (evs, Except.error e) => (evs, IterResult.raisedErr e)
  | (evs, Except.ok s0) =>
    let s1 := get_application_id s0 env.byName true
    if pyTruthy s1.application_id then
      let (app_state, s2) := get_application_state s1 env.appById env.dns
      if stateIsFinal app_state then
        (evs ++ [Ev.raiseEv 500],
         IterResult.raisedErr (KernelError.raised 500
           (startup_error_message s2.kernel_id (s2.application_id.getD "")
             (app_state.getD ""))))
      else if s2.assigned_host ≠ "" then
        (evs ++ [Ev.connRequest],
         if env.recvConnInfo then IterResult.connected s2 else IterResult.again s2)
      else (evs, IterResult.again s2)
    else
      match env.detect with
      | some e => (evs, IterResult.raisedErr e)
      | none => (evs, IterResult.again s1)

/-- The `confirm_remote_startup` loop as a fuel-indexed iteration of
`confirm_iteration` over per-iteration collaborator responses `envs`:
`Except.ok (some s)` means the loop exited with connection info confirmed
(the session transitions to RUNNING), `Except.error e` that a failure was
raised, and `Except.ok none` that the fuel ran out with the loop still
polling. -/
def confirm_loop (timeout maxPoll : Nat) (envs : Nat → IterEnv) :
    Nat → Nat → Session → List Ev × Except KernelError (Option Session)
  | 0, _, _ => ([], Except.ok none)
  | fuel + 1, k, s =>
    match confirm_iteration s timeout maxPoll (envs k) with
    | (evs, IterResult.connected s2) => (evs, Except.ok (some s2))
    | (evs, IterResult.raisedErr e) => (evs, Except.error e)
    | (evs, IterResult.again s2) =>
      let r := confirm_loop timeout maxPoll envs fuel (k + 1) s2
      (evs ++ r.1, r.2)



/-- A running application named after kernel id `kernel-abc`. -/
def appRunning001 : App := ⟨"app_001", "kernel-abc", "RUNNING", ""⟩

/-- A later (greater-id) accepted application with the same name. -/
def appAccepted002 : App := ⟨"app_002", "kernel-abc", "ACCEPTED", ""⟩

/-- A later (greater-id) killed application with the same name. -/
def appKilled002 : App := ⟨"app_002", "kernel-abc", "KILLED", ""⟩

/-- A finished application with the same name. -/
def appFinished003 : App := ⟨"app_003", "kernel-abc", "FINISHED", ""⟩

/-- A session before any application id has been resolved. -/
def freshSession : Session := ⟨none, "kernel-abc", "", "", none, 0⟩

/-- A session that has already been bound to an application id. -/
def boundSession : Session := ⟨some "application_1666", "kernel-abc", "", "", some 42, 7⟩

/-- A startup-confirmation iteration environment in which the timeout has not
elapsed and the by-id query observes the application already FINISHED. -/
def finalObservedEnv : IterEnv :=
  ⟨0, none, none, none, fun _ => none, none, some appFinished003, fun h => h,
    false, none⟩

lemma listLtB_irrefl (l : List Char) : listLtB l l = false := by
  induction l with
  | nil => rfl
  | cons a as ih => simp [listLtB, ih]

lemma listLtB_trans {a b c : List Char} (h1 : listLtB a b = true)
    (h2 : listLtB b c = true) : listLtB a c = true := by
  induction a generalizing b c with
  | nil =>
    match b, c with
    | [], [] => exact h2
    | [], _ :: _ => rfl
    | _ :: _, [] => simp [listLtB] at h2
    | _ :: _, _ :: _ => rfl
  | cons x xs ih =>
    match b, c with
    | [], _ => simp [listLtB] at h1
    | _ :: _, [] => simp [listLtB] at h2
    | y :: ys, z :: zs =>
      simp only [listLtB] at h1 h2 ⊢
      by_cases hxy : x.toNat < y.toNat <;> by_cases hyz : y.toNat < z.toNat <;>
        by_cases hyx : y.toNat < x.toNat <;> by_cases hzy : z.toNat < y.toNat <;>
        simp [hxy, hyz, hyx, hzy] at h1 h2 ⊢
      all_goals try omega
      all_goals exact Or.inr (And.intro (by omega) (ih h1 h2))

lemma char_toNat_inj {a b : Char} (h : a.toNat = b.toNat) : a = b :=
  Char.ext (UInt32.ext h)

lemma listLtB_conn {a b : List Char} (h1 : listLtB a b = false)
    (h2 : listLtB b a = false) : a = b := by
  induction a generalizing b with
  | nil =>
    match b with
    | [] => rfl
    | _ :: _ => simp [listLtB] at h1
  | cons x xs ih =>
    match b with
    | [] => simp [listLtB] at h2
    | y :: ys =>
      simp only [listLtB] at h1 h2
      by_cases hxy : x.toNat < y.toNat <;> by_cases hyx : y.toNat < x.toNat <;>
        simp [hxy, hyx] at h1 h2
      have hx : x = y := char_toNat_inj (by omega)
      rw [hx, ih h1 h2]

lemma listLtB_asymm {a b : List Char} (h : listLtB a b = true) :
    listLtB b a = false := by
  by_contra hb
  have hba : listLtB b a = true := by
    cases hc : listLtB b a with
    | false => exact absurd hc hb
    | true => rfl
  have := listLtB_trans h hba
  rw [listLtB_irrefl] at this
  exact Bool.false_ne_true this

/-- `a` is at most `b` in Python string comparison. -/
lemma str_le_trans {a b c : String} (h1 : strLtB b a = false)
    (h2 : strLtB c b = false) : strLtB c a = false := by
  unfold strLtB at h1 h2 ⊢
  by_contra hb
  have hca : listLtB c.data a.data = true := by
    cases hc : listLtB c.data a.data with
    | false => exact absurd hc hb
    | true => rfl
  cases hbc : listLtB b.data c.data with
  | true =>
    have := listLtB_trans hbc hca
    rw [this] at h1
    simp at h1
  | false =>
    have hbceq : b.data = c.data := listLtB_conn hbc h2
    rw [hbceq, hca] at h1
    simp at h1

lemma str_le_of_lt {a b : String} (h : strLtB a b = true) : strLtB b a = false :=
  listLtB_asymm h

lemma str_lt_of_pos_length {a : String} (h : 0 < a.length) :
    strLtB "" a = true := by
  unfold strLtB
  match hd : a.data with
  | [] => simp [String.length, hd] at h
  | _ :: _ => rfl



lemma str_lt_irrefl (a : String) : strLtB a a = false := listLtB_irrefl a.data

/-- Invariant and progress facts of the selection loop of
`_query_app_by_name`: starting from a well-formed accumulator, the fold keeps
the accumulator well-formed (the held id is the held app's id and the held app
matches), never decreases the held id, ends at least as high as every matching
id of the list, and holds either the initial app or an app of the list. -/
lemma foldl_topStep_spec (kid : String) (l : List App) :
    ∀ acc : String × Option App,
    (∀ a, acc.2 = some a → acc.1 = a.id ∧ matchesName kid a = true) →
    (acc.2 = none → acc.1 = "") →
    (∀ a, (l.foldl (topStep kid) acc).2 = some a →
        (l.foldl (topStep kid) acc).1 = a.id ∧ matchesName kid a = true) ∧
    ((l.foldl (topStep kid) acc).2 = none → (l.foldl (topStep kid) acc).1 = "") ∧
    strLtB (l.foldl (topStep kid) acc).1 acc.1 = false ∧
    (∀ b ∈ l, matchesName kid b = true →
        strLtB (l.foldl (topStep kid) acc).1 b.id = false) ∧
    ((l.foldl (topStep kid) acc).2 = acc.2 ∨
        ∃ a ∈ l, (l.foldl (topStep kid) acc).2 = some a) := by
  induction l with
  | nil =>
    intro acc hsome hnone
    exact ⟨hsome, hnone, str_lt_irrefl acc.1, by intro b hb; simp at hb, Or.inl rfl⟩
  | cons hd tl ih =>
    intro acc hsome hnone
    rw [List.foldl_cons]
    by_cases hc : (matchesName kid hd && strLtB acc.1 hd.id) = true
    · -- the head replaces the accumulator
      have hstep : topStep kid acc hd = (hd.id, some hd) := by
        unfold topStep; rw [if_pos hc]
      rw [hstep]
      have hc2 := hc
      simp only [Bool.and_eq_true] at hc2
      have hm : matchesName kid hd = true := hc2.1
      have hlt : strLtB acc.1 hd.id = true := hc2.2
      obtain ⟨i1, i2, i3, i4, i5⟩ := ih (hd.id, some hd)
        (by intro a ha; cases ha; exact ⟨rfl, hm⟩) (by intro h; cases h)
      refine ⟨i1, i2, ?_, ?_, ?_⟩
      · exact str_le_trans (str_le_of_lt hlt) i3
      · intro b hb hmb
        rcases List.mem_cons.mp hb with rfl | hbtl
        · exact i3
        · exact i4 b hbtl hmb
      · rcases i5 with heq | ⟨a, ha, heq⟩
        · exact Or.inr ⟨hd, List.mem_cons_self .., by simpa using heq⟩
        · exact Or.inr ⟨a, List.mem_cons_of_mem _ ha, heq⟩
    · -- the head is skipped
      have hstep : topStep kid acc hd = acc := by
        unfold topStep; rw [if_neg hc]
      rw [hstep]
      obtain ⟨i1, i2, i3, i4, i5⟩ := ih acc hsome hnone
      refine ⟨i1, i2, i3, ?_, ?_⟩
      · intro b hb hmb
        rcases List.mem_cons.mp hb with rfl | hbtl
        · have hnlt : strLtB acc.1 b.id = false := by
            cases hx : strLtB acc.1 b.id with
            | false => rfl
            | true => exact absurd (by rw [hmb, hx]; rfl) hc
          exact str_le_trans hnlt i3
        · exact i4 b hbtl hmb
      · rcases i5 with heq | ⟨a, ha, heq⟩
        · exact Or.inl heq
        · exact Or.inr ⟨a, List.mem_cons_of_mem _ ha, heq⟩


/-- The selection property of `_query_app_by_name`: as soon as some
application matches the kernel id with a non-empty id, the query returns a
matching application of the list whose id is greatest (in Python string
comparison) among all matching entries. -/
lemma query_app_by_name_spec (kid : String) (apps : List App)
    (hex : ∃ a ∈ apps, matchesName kid a = true ∧ strLtB "" a.id = true) :
    ∃ t, query_app_by_name kid (some apps) = some t ∧ t ∈ apps ∧
      matchesName kid t = true ∧
      ∀ b ∈ apps, matchesName kid b = true → strLtB t.id b.id = false := by
  obtain ⟨a, ha, hm, hpos⟩ := hex
  obtain ⟨i1, i2, i3, i4, i5⟩ := foldl_topStep_spec kid apps ("", none)
    (by intro x hx; cases hx) (fun _ => rfl)
  match hsnd : (apps.foldl (topStep kid) ("", none)).2 with
  | none =>
    exfalso
    have h1 := i2 hsnd
    have h2 := i4 a ha hm
    rw [h1] at h2
    rw [h2] at hpos
    exact Bool.false_ne_true hpos
  | some t =>
    obtain ⟨hid, hmt⟩ := i1 t hsnd
    have htmem : t ∈ apps := by
      rcases i5 with heq | ⟨x, hx, heq⟩
      · rw [hsnd] at heq; cases heq
      · rw [hsnd] at heq; cases heq; exact hx
    refine ⟨t, ?_, htmem, hmt, ?_⟩
    · simpa [query_app_by_name] using hsnd
    · intro b hb hmb
      have := i4 b hb hmb
      rw [hid] at this
      exact this

/-- `_get_application_id` leaves every session field except `application_id`
unchanged, and leaves the whole session unchanged when `application_id` is
already truthy. -/
lemma get_application_id_frame (s : Session) (byName : Option (List App))
    (f : Bool) :
    (get_application_id s byName f).kernel_id = s.kernel_id ∧
    (get_application_id s byName f).assigned_host = s.assigned_host ∧
    (get_application_id s byName f).assigned_ip = s.assigned_ip ∧
    (get_application_id s byName f).local_proc = s.local_proc ∧
    (get_application_id s byName f).start_time = s.start_time := by
  unfold get_application_id
  split
  · exact ⟨rfl, rfl, rfl, rfl, rfl⟩
  · split
    · exact ⟨rfl, rfl, rfl, rfl, rfl⟩
    · dsimp only
      split
      · exact ⟨rfl, rfl, rfl, rfl, rfl⟩
      · exact ⟨rfl, rfl, rfl, rfl, rfl⟩

/-- `_get_application_id` is the identity once `application_id` is truthy. -/
lemma get_application_id_stable (s : Session) (byName : Option (List App))
    (f : Bool) (h : pyTruthy s.application_id = true) :
    get_application_id s byName f = s := by
  unfold get_application_id
  rw [if_pos h]

/-- With `application_id` falsy and no state condition
(`ignore_final_states=False`), `_get_application_id` adopts the selected
application's id whenever it is non-empty, whatever its state. -/
lemma get_application_id_adopts (s : Session) (byName : Option (List App))
    (a : App) (hid : s.application_id = none)
    (hq : query_app_by_name s.kernel_id byName = some a)
    (hlen : 0 < a.id.length) :
    (get_application_id s byName false).application_id = some a.id := by
  unfold get_application_id
  rw [hid]
  simp only [pyTruthy, Bool.false_eq_true, if_false, hq]
  have : (a.id.length > 0 && (!false || decide (a.state ∉ final_states))) = true := by
    simp [hlen]
  rw [this]
  simp

/-- The state-confirmation loop of `kill` is bounded: entered with counter `i`
at most `maxPoll + 1`, it ends with a counter at most `maxPoll + 1` — so from
its real entry point `i = 1` it performs at most `maxPoll` further state
queries. -/
lemma kill_wait_bound (states : Nat → Option String) (maxPoll : Nat) :
    ∀ fuel st i, maxPoll + 1 - i ≤ fuel → i ≤ maxPoll + 1 →
      ∀ st2 i2, kill_wait states maxPoll st i = Except.ok (st2, i2) →
      i2 ≤ maxPoll + 1 := by
  intro fuel
  induction fuel with
  | zero =>
    intro st i hfuel hi st2 i2 h
    rw [kill_wait] at h
    rw [dif_neg (by omega)] at h
    cases h
    omega
  | succ n ih =>
    intro st i hfuel hi st2 i2 h
    rw [kill_wait] at h
    by_cases hc : st ∉ final_states ∧ i ≤ maxPoll
    · rw [dif_pos hc] at h
      cases hq : query_app_state_by_id (states i) with
      | error e => rw [hq] at h; cases h
      | ok st3 =>
        rw [hq] at h
        exact ih st3 (i + 1) (by omega) (by omega) st2 i2 h
    · rw [dif_neg hc] at h
      cases h
      omega

/-- When every queried state is a non-final state, the confirmation loop of
`kill` terminates normally with a non-final last state. -/
lemma kill_wait_nonfinal (states : Nat → Option String) (maxPoll : Nat)
    (hs : ∀ j, ∃ st, states j = some st ∧ st ∉ final_states) :
    ∀ fuel st i, maxPoll + 1 - i ≤ fuel → st ∉ final_states →
      ∃ st2 i2, kill_wait states maxPoll st i = Except.ok (st2, i2) ∧
        st2 ∉ final_states := by
  intro fuel
  induction fuel with
  | zero =>
    intro st i hfuel hst
    refine ⟨st, i, ?_, hst⟩
    rw [kill_wait]
    rw [dif_neg (by omega)]
  | succ n ih =>
    intro st i hfuel hst
    by_cases hc : i ≤ maxPoll
    · obtain ⟨st3, hq, hst3⟩ := hs i
      obtain ⟨st2, i2, hrec, h2⟩ := ih st3 (i + 1) (by omega) hst3
      refine ⟨st2, i2, ?_, h2⟩
      rw [kill_wait, dif_pos ⟨hst, hc⟩]
      simp only [query_app_state_by_id, hq]
      exact hrec
    · refine ⟨st, i, ?_, hst⟩
      rw [kill_wait, dif_neg (by intro hcc; exact hc hcc.2)]

/-- When every state query returns a response, the confirmation loop of
`kill` never raises. -/
lemma kill_wait_total (states : Nat → Option String) (maxPoll : Nat)
    (hs : ∀ j, (states j).isSome = true) :
    ∀ fuel st i, maxPoll + 1 - i ≤ fuel →
      ∃ st2 i2, kill_wait states maxPoll st i = Except.ok (st2, i2) := by
  intro fuel
  induction fuel with
  | zero =>
    intro st i hfuel
    refine ⟨st, i, ?_⟩
    rw [kill_wait, dif_neg (by omega)]
  | succ n ih =>
    intro st i hfuel
    by_cases hc : st ∉ final_states ∧ i ≤ maxPoll
    · obtain ⟨st3, hq⟩ := Option.isSome_iff_exists.mp (hs i)
      obtain ⟨st2, i2, hrec⟩ := ih st3 (i + 1) (by omega)
      refine ⟨st2, i2, ?_⟩
      rw [kill_wait, dif_pos hc]
      simp only [query_app_state_by_id, hq]
      exact hrec
    · refine ⟨st, i, ?_⟩
      rw [kill_wait, dif_neg hc]

/-- A final state observed on loop entry ends the loop at once. -/
lemma kill_wait_final (states : Nat → Option String) (maxPoll : Nat)
    (st : String) (i : Nat) (h : st ∈ final_states) :
    kill_wait states maxPoll st i = Except.ok (st, i) := by
  rw [kill_wait, dif_neg (by intro hc; exact hc.1 h)]

/-- When every state query returns a response, `kill` never raises. -/
lemma kill_total (s : Session) (byName : Option (List App))
    (states : Nat → Option String) (superKillResult : Option Bool)
    (maxPoll : Nat) (hs : ∀ j, (states j).isSome = true) :
    ∃ r, kill s byName states superKillResult maxPoll = Except.ok r := by
  unfold kill
  dsimp only
  by_cases hres : pyTruthy (get_application_id s byName false).application_id = true
  · rw [if_pos hres]
    obtain ⟨st0, hq⟩ := Option.isSome_iff_exists.mp (hs 0)
    simp only [query_app_state_by_id, hq]
    obtain ⟨st2, i2, hw⟩ := kill_wait_total states maxPoll hs (maxPoll + 1 - 1) st0 1 (by omega)
    rw [hw]
    dsimp only
    by_cases hf : st2 ∈ final_states
    · rw [if_pos hf]; exact ⟨_, rfl⟩
    · rw [if_neg hf]; exact ⟨_, rfl⟩
  · rw [if_neg hres]; exact ⟨_, rfl⟩

/-- When the application resolves and every queried state is non-final, the
kill loop exhausts its budget and `kill` falls back to the local-process kill,
returning the collaborator's result. -/
lemma kill_fallback (s : Session) (byName : Option (List App))
    (states : Nat → Option String) (superKillResult : Option Bool)
    (maxPoll : Nat)
    (hres : pyTruthy (get_application_id s byName false).application_id = true)
    (hs : ∀ j, ∃ st, states j = some st ∧ st ∉ final_states) :
    kill s byName states superKillResult maxPoll =
      Except.ok (superKillResult, get_application_id s byName false) := by
  unfold kill
  rw [if_pos hres]
  obtain ⟨st0, hq, hst0⟩ := hs 0
  simp only [query_app_state_by_id, hq]
  obtain ⟨st2, i2, hw, hnf⟩ :=
    kill_wait_nonfinal states maxPoll hs (maxPoll + 1 - 1) st0 1 (by omega) hst0
  rw [hw]
  dsimp only
  rw [if_neg hnf]

/-- `kill` reports the dead indicator only when a final state was confirmed by
the state-polling loop or the local-process fallback reported it. -/
lemma kill_dead_source (s : Session) (byName : Option (List App))
    (states : Nat → Option String) (superKillResult : Option Bool)
    (maxPoll : Nat) (s2 : Session)
    (h : kill s byName states superKillResult maxPoll = Except.ok (none, s2)) :
    superKillResult = none ∨
      ∃ st0 st i2, query_app_state_by_id (states 0) = Except.ok st0 ∧
        kill_wait states maxPoll st0 1 = Except.ok (st, i2) ∧
        st ∈ final_states := by
  unfold kill at h
  dsimp only at h
  by_cases hres : pyTruthy (get_application_id s byName false).application_id = true
  · rw [if_pos hres] at h
    cases hq : query_app_state_by_id (states 0) with
    | error e => rw [hq] at h; cases h
    | ok st0 =>
      rw [hq] at h
      dsimp only at h
      cases hw : kill_wait states maxPoll st0 1 with
      | error e => rw [hw] at h; cases h
      | ok r =>
        rw [hw] at h
        dsimp only at h
        by_cases hf : r.1 ∈ final_states
        · exact Or.inr ⟨st0, r.1, r.2, rfl, by rw [hw], hf⟩
        · rw [if_neg hf] at h
          cases h
          exact Or.inl rfl
  · rw [if_neg hres] at h
    cases h
    exact Or.inl rfl

/-- C1: the state query `_query_app_state_by_id` does NOT convert a transport
failure to an absent result: on a raised client call (caught response left at
`None`) the unconditional `response.data['state']` raises `AttributeError` to
the caller; only on success is the state returned.  This contradicts the
claim (and the spec's locator design), so the claim is settled as a code bug,
this theorem exhibiting the faulty behaviour. -/
theorem c1_query_state_transport_failure_raises :
    query_app_state_by_id none = Except.error KernelError.attributeError ∧
    ∀ st : String, query_app_state_by_id (some st) = Except.ok st :=
  ⟨rfl, fun _ => rfl⟩

/-- C2 counterexample: for a session with a known application id whose freshly
queried state is FAILED, `poll` returns `some false` — the dead indicator
(Python `False`) — not the alive indicator (`none`, Python `None`) the claim
states. -/
theorem c2_failed_poll_counterexample :
    poll boundSession none (some "FAILED") = Except.ok (some false, boundSession) ∧
    (some false : Option Bool) ≠ (none : Option Bool) := by
  constructor
  · rfl
  · simp

/-- C2 (amended): for a session whose application id is known and whose
freshly queried cluster state is FAILED, steady-state `poll` reports the
application as dead (`False`): `poll` tests membership in `initial_states`,
which excludes FAILED — the exclusion of FAILED from `final_states` affects
kill confirmation, not `poll`. -/
theorem c2_failed_poll_reports_dead (s : Session) (byName : Option (List App))
    (aid : String) (h1 : s.application_id = some aid) (h2 : aid ≠ "") :
    poll s byName (some "FAILED") = Except.ok (some false, s) ∧
    "FAILED" ∉ initial_states ∧ "FAILED" ∉ final_states := by
  have ht : pyTruthy s.application_id = true := by
    rw [h1]; simp [pyTruthy, h2]
  refine ⟨?_, by decide, by decide⟩
  unfold poll
  rw [get_application_id_stable s byName false ht]
  rw [if_pos ht]
  simp only [query_app_state_by_id]
  rw [if_neg (by decide)]

/-- C2 witness for the amended theorem at a concrete session. -/
theorem c2_failed_poll_reports_dead_witness :
    poll boundSession (some [appAccepted002]) (some "FAILED") =
      Except.ok (some false, boundSession) :=
  (c2_failed_poll_reports_dead boundSession (some [appAccepted002])
    "application_1666" rfl (by decide)).1

/-- C3 counterexample: with `ignoreFinalStates` set and candidates
`app_001` (RUNNING) and `app_002` (KILLED) both matching, the claim predicts
the greatest-id non-final candidate `app_001`; the code instead selects the
greatest-id candidate first (`app_002`), rejects it because it is final, and
resolves nothing — so final-state candidates are not excluded from
consideration before selection. -/
theorem c3_final_state_filter_counterexample :
    matchesName "kernel-abc" appRunning001 = true ∧
    appRunning001.state ∉ final_states ∧
    matchesName "kernel-abc" appKilled002 = true ∧
    appKilled002.state ∈ final_states ∧
    strLtB appRunning001.id appKilled002.id = true ∧
    (get_application_id freshSession (some [appRunning001, appKilled002])
        true).application_id = none := by
  decide

/-- C3 (amended): with `ignoreFinalStates` set, the final-state check applies
only after selection — the greatest-id name match is chosen first, and the
result is that match's id when its state is non-final, absent when it is in a
final state (even if an older non-final match exists); in particular, when
the only match is in state KILLED the result is absent. -/
theorem c3_selection_precedes_final_state_filter (s : Session) (apps : List App)
    (a : App) (hid : s.application_id = none) (ha : a ∈ apps)
    (hm : matchesName s.kernel_id a = true) (hlen : 0 < a.id.length)
    (hmax : ∀ b ∈ apps, matchesName s.kernel_id b = true → b ≠ a →
        strLtB b.id a.id = true) :
    (get_application_id s (some apps) true).application_id =
      if a.state ∈ final_states then none else some a.id := by
  have hpos : strLtB "" a.id = true := str_lt_of_pos_length hlen
  obtain ⟨t, hq, htm, hmt, hbound⟩ :=
    query_app_by_name_spec s.kernel_id apps ⟨a, ha, hm, hpos⟩
  have hta : t = a := by
    by_contra hne
    have hlt := hmax t htm hmt hne
    have hle := hbound a ha hm
    rw [hlt] at hle
    exact Bool.noConfusion hle
  rw [hta] at hq
  unfold get_application_id
  rw [hid]
  simp only [pyTruthy, Bool.false_eq_true, if_false, hq]
  by_cases hf : a.state ∈ final_states
  · rw [if_pos hf]
    have : (a.id.length > 0 && (!true || decide (a.state ∉ final_states))) = false := by
      simp [hf]
    rw [this]
    simpa using hid
  · rw [if_neg hf]
    have : (a.id.length > 0 && (!true || decide (a.state ∉ final_states))) = true := by
      simp [hf, hlen]
    rw [this]
    simp

/-- C3 witness: the sole match is KILLED, so resolution yields absent. -/
theorem c3_selection_precedes_final_state_filter_witness :
    (get_application_id freshSession (some [appKilled002]) true).application_id
      = none := by
  have h := c3_selection_precedes_final_state_filter freshSession [appKilled002]
    appKilled002 rfl (by decide) (by decide) (by decide)
    (by intro b hb hmb hne; simp only [List.mem_singleton] at hb; exact absurd hb hne)
  rw [if_pos (by decide)] at h
  exact h

/-- C4: for every list of applications containing at least one whose name
contains the kernel identity (with a non-empty id), `_query_app_by_name`
returns a matching entry of the list whose application id is greatest (in
Python string comparison) among all matching entries. -/
theorem c4_find_by_name_selects_greatest_id (kid : String) (apps : List App)
    (hex : ∃ a ∈ apps, matchesName kid a = true ∧ strLtB "" a.id = true) :
    ∃ t, query_app_by_name kid (some apps) = some t ∧ t ∈ apps ∧
      matchesName kid t = true ∧
      ∀ b ∈ apps, matchesName kid b = true → strLtB t.id b.id = false :=
  query_app_by_name_spec kid apps hex

/-- C4 witness: with matches `app_001` (RUNNING) and `app_002` (ACCEPTED) the
query selects `app_002`. -/
theorem c4_find_by_name_selects_greatest_id_witness :
    (∃ t, query_app_by_name "kernel-abc" (some [appRunning001, appAccepted002])
        = some t ∧ t ∈ [appRunning001, appAccepted002] ∧
        matchesName "kernel-abc" t = true ∧
        ∀ b ∈ [appRunning001, appAccepted002], matchesName "kernel-abc" b = true →
          strLtB t.id b.id = false) ∧
    query_app_by_name "kernel-abc" (some [appRunning001, appAccepted002]) =
      some appAccepted002 :=
  ⟨c4_find_by_name_selects_greatest_id "kernel-abc" [appRunning001, appAccepted002]
      ⟨appAccepted002, by decide, by decide, by decide⟩,
    by decide⟩

/-- C5: once `applicationId` has been assigned (it is then a non-empty
string), every later `_get_application_id` call — with or without final-state
exclusion, and whatever the cluster listing would now return — leaves the
session unchanged and returns the already-assigned id without consulting the
by-name query. -/
theorem c5_application_id_sticky (s : Session) (aid : String)
    (h1 : s.application_id = some aid) (h2 : aid ≠ "")
    (byName : Option (List App)) (ignoreFinalStates : Bool) :
    get_application_id s byName ignoreFinalStates = s := by
  apply get_application_id_stable
  rw [h1]; simp [pyTruthy, h2]

/-- C5 witness: a bound session is unchanged even when a newer matching
application exists in the listing. -/
theorem c5_application_id_sticky_witness :
    get_application_id boundSession (some [⟨"application_9999", "kernel-abc",
      "RUNNING", ""⟩]) true = boundSession ∧
    boundSession.application_id = some "application_1666" :=
  ⟨c5_application_id_sticky boundSession "application_1666" rfl (by decide) _ _,
    rfl⟩

/-- C9: `cleanup` is idempotent — a second call yields the same end state as
one call — and after any call the application id is absent and the local
process handle released, all other session fields untouched. -/
theorem c9_cleanup_idempotent (s : Session) :
    cleanup (cleanup s) = cleanup s ∧
    (cleanup s).application_id = none ∧
    (cleanup s).local_proc = none ∧
    (cleanup s).kernel_id = s.kernel_id ∧
    (cleanup s).assigned_host = s.assigned_host ∧
    (cleanup s).assigned_ip = s.assigned_ip ∧
    (cleanup s).start_time = s.start_time := by
  cases h : s.local_proc <;> simp [cleanup, h]

/-- C8: `kill`'s state-confirmation loop is bounded and falls back.  First
conjunct: entered at counter 1 (after the initial state query), the loop ends
with counter at most `max_poll_attempts + 1`, i.e. it re-queries state at most
`max_poll_attempts` (default 10) additional times, sleeping one poll interval
before each re-query.  Second: when the application resolves and every queried
state is non-final, the loop exhausts its budget and `kill` falls back to
signalling the local process, returning the fallback's result — the alive
indicator (`False`) whenever the fallback reports it.  Third: the dead
indicator (`None`) is returned only when the polling loop confirmed a final
state or the fallback kill itself reported dead. -/
theorem c8_kill_bounded_with_fallback (s : Session) (byName : Option (List App))
    (states : Nat → Option String) (superKillResult : Option Bool) :
    (∀ st0 st2 i2, kill_wait states max_poll_attempts st0 1 = Except.ok (st2, i2) →
        i2 - 1 ≤ max_poll_attempts) ∧
    (pyTruthy (get_application_id s byName false).application_id = true →
      (∀ j, ∃ st, states j = some st ∧ st ∉ final_states) →
      kill s byName states superKillResult max_poll_attempts =
        Except.ok (superKillResult, get_application_id s byName false)) ∧
    (∀ s2, kill s byName states superKillResult max_poll_attempts =
        Except.ok (none, s2) →
      superKillResult = none ∨
        ∃ st0 st i2, query_app_state_by_id (states 0) = Except.ok st0 ∧
          kill_wait states max_poll_attempts st0 1 = Except.ok (st, i2) ∧
          st ∈ final_states) := by
  refine ⟨?_, ?_, ?_⟩
  · intro st0 st2 i2 h
    have := kill_wait_bound states max_poll_attempts max_poll_attempts st0 1
      (by omega) (by omega) st2 i2 h
    omega
  · intro hres hs
    exact kill_fallback s byName states superKillResult max_poll_attempts hres hs
  · intro s2 h
    exact kill_dead_source s byName states superKillResult max_poll_attempts s2 h

/-- C8 witness: with a bound session and a cluster stuck reporting RUNNING,
`kill` returns the fallback's alive indicator; and a loop entered on a final
state stops within the budget. -/
theorem c8_kill_bounded_with_fallback_witness :
    (1 - 1 ≤ max_poll_attempts) ∧
    kill boundSession none (fun _ => some "RUNNING") (some false)
        max_poll_attempts = Except.ok (some false, boundSession) := by
  constructor
  · exact (c8_kill_bounded_with_fallback boundSession none
      (fun _ => some "RUNNING") (some false)).1 "KILLED" "KILLED" 1
      (kill_wait_final (fun _ => some "RUNNING") max_poll_attempts "KILLED" 1
        (by decide))
  · exact (c8_kill_bounded_with_fallback boundSession none
      (fun _ => some "RUNNING") (some false)).2.1 (by decide)
      (fun j => ⟨"RUNNING", rfl, by decide⟩)

/-- C6: when the launch timeout has elapsed and the kill's state queries all
respond, `handle_timeout` raises a fatal failure classified by the situation —
code 500 with the submission-failure reason when no application id resolves,
code 503 with the resources-unavailable reason when the application is known
but its queried state is not RUNNING, and code 500 with the
missing-connection-info reason when it is RUNNING — and in each case the
best-effort kill is attempted before the failure is raised (the event trace is
`[killAttempt, raiseEv code]`, in that order). -/
theorem c6_handle_timeout_classification (s : Session) (elapsed timeout : Nat)
    (byName killByName : Option (List App)) (stateResp : Option String)
    (killStates : Nat → Option String) (superKillResult : Option Bool)
    (maxPoll : Nat) (helapsed : elapsed > timeout)
    (hkill : ∀ j, (killStates j).isSome = true) :
    (pyTruthy (get_application_id s byName true).application_id = false →
      handle_timeout s elapsed timeout byName stateResp killByName killStates
          superKillResult maxPoll =
        ([Ev.killAttempt, Ev.raiseEv 500],
         Except.error (KernelError.raised 500
           (timeout_message s.kernel_id (reason_no_app timeout))))) ∧
    (∀ st, pyTruthy (get_application_id s byName true).application_id = true →
      stateResp = some st → st ≠ "RUNNING" →
      handle_timeout s elapsed timeout byName stateResp killByName killStates
          superKillResult maxPoll =
        ([Ev.killAttempt, Ev.raiseEv 503],
         Except.error (KernelError.raised 503
           (timeout_message s.kernel_id (reason_unavailable elapsed
             ((get_application_id s byName true).application_id.getD "")
             timeout))))) ∧
    (pyTruthy (get_application_id s byName true).application_id = true →
      stateResp = some "RUNNING" →
      handle_timeout s elapsed timeout byName stateResp killByName killStates
          superKillResult maxPoll =
        ([Ev.killAttempt, Ev.raiseEv 500],
         Except.error (KernelError.raised 500
           (timeout_message s.kernel_id (reason_running_no_conn
             ((get_application_id s byName true).application_id.getD "")
             timeout))))) := by
  obtain ⟨r, hkeq⟩ := kill_total (get_application_id s byName true) killByName
    killStates superKillResult maxPoll hkill
  refine ⟨?_, ?_, ?_⟩
  · intro hres
    unfold handle_timeout
    rw [if_pos helapsed]
    simp only [hres, Bool.false_eq_true, if_false]
    rw [hkeq]
  · intro st hres hstate hrun
    unfold handle_timeout
    rw [if_pos helapsed]
    simp only [hres, hstate, if_true, query_app_state_by_id]
    rw [if_pos hrun]
    rw [hkeq]
  · intro hres hstate
    unfold handle_timeout
    rw [if_pos helapsed]
    simp only [hres, hstate, if_true, query_app_state_by_id]
    rw [if_neg (by simp : ¬ ("RUNNING" : String) ≠ "RUNNING")]
    rw [hkeq]

/-- C6 witness: the three classifications at concrete inputs (elapsed 100s,
timeout 60s): unresolved id gives 500 with the submission-failure reason, a
known id in state ACCEPTED gives 503 with the resources-unavailable reason,
and a known id in state RUNNING gives 500 with the missing-connection-info
reason — each after the kill attempt. -/
theorem c6_handle_timeout_classification_witness :
    handle_timeout freshSession 100 60 none none none (fun _ => some "KILLED")
        none max_poll_attempts =
      ([Ev.killAttempt, Ev.raiseEv 500],
       Except.error (KernelError.raised 500
         (timeout_message "kernel-abc" (reason_no_app 60)))) ∧
    handle_timeout boundSession 100 60 none (some "ACCEPTED") none
        (fun _ => some "KILLED") none max_poll_attempts =
      ([Ev.killAttempt, Ev.raiseEv 503],
       Except.error (KernelError.raised 503
         (timeout_message "kernel-abc"
           (reason_unavailable 100 "application_1666" 60)))) ∧
    handle_timeout boundSession 100 60 none (some "RUNNING") none
        (fun _ => some "KILLED") none max_poll_attempts =
      ([Ev.killAttempt, Ev.raiseEv 500],
       Except.error (KernelError.raised 500
         (timeout_message "kernel-abc"
           (reason_running_no_conn "application_1666" 60)))) := by
  refine ⟨?_, ?_, ?_⟩
  · exact (c6_handle_timeout_classification freshSession 100 60 none none none
      (fun _ => some "KILLED") none max_poll_attempts (by omega)
      (fun _ => rfl)).1 (by decide)
  · exact (c6_handle_timeout_classification boundSession 100 60 none none
      (some "ACCEPTED") (fun _ => some "KILLED") none max_poll_attempts
      (by omega) (fun _ => rfl)).2.1 "ACCEPTED" (by decide) rfl (by decide)
  · exact (c6_handle_timeout_classification boundSession 100 60 none none
      (some "RUNNING") (fun _ => some "KILLED") none max_poll_attempts
      (by omega) (fun _ => rfl)).2.2 (by decide) rfl

/-- Before the launch timeout elapses, `handle_timeout` only sleeps: no
classification, no kill, no raise. -/
lemma handle_timeout_no_timeout (s : Session) (elapsed timeout : Nat)
    (byName : Option (List App)) (stateResp : Option String)
    (killByName : Option (List App)) (killStates : Nat → Option String)
    (superKillResult : Option Bool) (maxPoll : Nat)
    (h : ¬ elapsed > timeout) :
    handle_timeout s elapsed timeout byName stateResp killByName killStates
      superKillResult maxPoll = ([], Except.ok s) := by
  unfold handle_timeout
  rw [if_neg h]

/-- C7: during startup confirmation, whenever the resolved application's state
is observed in a final state, the iteration raises the fatal 500 failure
immediately: its trace holds no connection-info request (the final-state check
precedes the connection-info step), and the whole confirmation loop ends in
that error — it can never reach the connected (RUNNING) outcome. -/
theorem c7_final_state_raises_before_connection (s : Session)
    (timeout maxPoll : Nat) (env : IterEnv) (appState : Option String)
    (s2 : Session) (h1 : env.elapsed ≤ timeout)
    (h2 : pyTruthy (get_application_id s env.byName true).application_id = true)
    (hgs : get_application_state (get_application_id s env.byName true)
        env.appById env.dns = (appState, s2))
    (h3 : stateIsFinal appState = true) :
    confirm_iteration s timeout maxPoll env =
      ([Ev.raiseEv 500],
       IterResult.raisedErr (KernelError.raised 500
         (startup_error_message s2.kernel_id (s2.application_id.getD "")
           (appState.getD "")))) ∧
    Ev.connRequest ∉ (confirm_iteration s timeout maxPoll env).1 ∧
    (∀ fuel k envs, envs k = env →
      confirm_loop timeout maxPoll envs (fuel + 1) k s =
        ([Ev.raiseEv 500],
         Except.error (KernelError.raised 500
           (startup_error_message s2.kernel_id (s2.application_id.getD "")
             (appState.getD ""))))) := by
  have hiter : confirm_iteration s timeout maxPoll env =
      ([Ev.raiseEv 500],
       IterResult.raisedErr (KernelError.raised 500
         (startup_error_message s2.kernel_id (s2.application_id.getD "")
           (appState.getD "")))) := by
    unfold confirm_iteration
    rw [handle_timeout_no_timeout s env.elapsed timeout env.byName env.stateResp
      env.killByName env.killStates env.superKillResult maxPoll (by omega)]
    simp only [h2, if_true, hgs, h3, List.nil_append]
  refine ⟨hiter, by rw [hiter]; simp, ?_⟩
  intro fuel k envs hk
  show confirm_loop timeout maxPoll envs (fuel + 1) k s = _
  unfold confirm_loop
  rw [hk, hiter]

/-- C7 witness: a bound session whose by-id query observes state FINISHED —
the iteration raises at once with the startup error, never requesting
connection info, and the loop ends in that error. -/
theorem c7_final_state_raises_before_connection_witness :
    confirm_iteration boundSession 60 max_poll_attempts finalObservedEnv =
      ([Ev.raiseEv 500],
       IterResult.raisedErr (KernelError.raised 500
         (startup_error_message "kernel-abc" "application_1666" "FINISHED"))) ∧
    confirm_loop 60 max_poll_attempts (fun _ => finalObservedEnv) 1 0
        boundSession =
      ([Ev.raiseEv 500],
       Except.error (KernelError.raised 500
         (startup_error_message "kernel-abc" "application_1666" "FINISHED"))) := by
  have h := c7_final_state_raises_before_connection boundSession 60
    max_poll_attempts finalObservedEnv (some "FINISHED") boundSession
    (by decide) (by decide) (by decide) (by decide)
  exact ⟨h.1, h.2.2 0 0 (fun _ => finalObservedEnv) rfl⟩

/-- Whenever `poll` returns normally, the session it leaves behind is exactly
the one produced by its initial `_get_application_id()` call. -/
lemma poll_ok_session (s : Session) (byName : Option (List App))
    (stateResp : Option String) (r : Option Bool) (s2 : Session)
    (h : poll s byName stateResp = Except.ok (r, s2)) :
    s2 = get_application_id s byName false := by
  unfold poll at h
  dsimp only at h
  by_cases ht : pyTruthy (get_application_id s byName false).application_id = true
  · rw [if_pos ht] at h
    cases stateResp with
    | none => simp [query_app_state_by_id] at h
    | some st =>
      simp only [query_app_state_by_id] at h
      by_cases hi : st ∈ initial_states
      · rw [if_pos hi] at h
        exact (congrArg Prod.snd (Except.ok.inj h)).symm
      · rw [if_neg hi] at h
        exact (congrArg Prod.snd (Except.ok.inj h)).symm
  · rw [if_neg ht] at h
    exact (congrArg Prod.snd (Except.ok.inj h)).symm

/-- Whenever `kill` returns normally, the session it leaves behind is exactly
the one produced by its initial `_get_application_id()` call. -/
lemma kill_ok_session (s : Session) (byName : Option (List App))
    (states : Nat → Option String) (superKillResult : Option Bool)
    (maxPoll : Nat) (r : Option Bool) (s2 : Session)
    (h : kill s byName states superKillResult maxPoll = Except.ok (r, s2)) :
    s2 = get_application_id s byName false := by
  unfold kill at h
  dsimp only at h
  by_cases ht : pyTruthy (get_application_id s byName false).application_id = true
  · rw [if_pos ht] at h
    cases hq : query_app_state_by_id (states 0) with
    | error e => rw [hq] at h; cases h
    | ok st0 =>
      rw [hq] at h
      dsimp only at h
      cases hw : kill_wait states maxPoll st0 1 with
      | error e => rw [hw] at h; cases h
      | ok p =>
        rw [hw] at h
        dsimp only at h
        by_cases hf : p.1 ∈ final_states
        · rw [if_pos hf] at h
          exact (congrArg Prod.snd (Except.ok.inj h)).symm
        · rw [if_neg hf] at h
          exact (congrArg Prod.snd (Except.ok.inj h)).symm
  · rw [if_neg ht] at h
    exact (congrArg Prod.snd (Except.ok.inj h)).symm

/-- C10: whenever `poll` (or `kill`) returns normally, every session field
other than `applicationId` is unchanged, and `applicationId` itself is
unchanged when it was already truthy; when it was absent, the call performs
the fresh by-name lookup without final-state exclusion and adopts whatever
match it returns (any non-empty id, whatever its state — including FINISHED
or KILLED). -/
theorem c10_poll_kill_frame (s : Session) (byName : Option (List App))
    (stateResp : Option String) (states : Nat → Option String)
    (superKillResult : Option Bool) (maxPoll : Nat) :
    (∀ r s2, poll s byName stateResp = Except.ok (r, s2) →
      s2.kernel_id = s.kernel_id ∧ s2.assigned_host = s.assigned_host ∧
      s2.assigned_ip = s.assigned_ip ∧ s2.local_proc = s.local_proc ∧
      s2.start_time = s.start_time ∧
      (pyTruthy s.application_id = true → s2.application_id = s.application_id)) ∧
    (∀ r s2, kill s byName states superKillResult maxPoll = Except.ok (r, s2) →
      s2.kernel_id = s.kernel_id ∧ s2.assigned_host = s.assigned_host ∧
      s2.assigned_ip = s.assigned_ip ∧ s2.local_proc = s.local_proc ∧
      s2.start_time = s.start_time ∧
      (pyTruthy s.application_id = true → s2.application_id = s.application_id)) ∧
    (∀ a, s.application_id = none → query_app_by_name s.kernel_id byName = some a →
      0 < a.id.length →
      (∀ r s2, poll s byName stateResp = Except.ok (r, s2) →
          s2.application_id = some a.id) ∧
      (∀ r s2, kill s byName states superKillResult maxPoll = Except.ok (r, s2) →
          s2.application_id = some a.id)) := by
  obtain ⟨f1, f2, f3, f4, f5⟩ := get_application_id_frame s byName false
  refine ⟨?_, ?_, ?_⟩
  · intro r s2 h
    have hs2 := poll_ok_session s byName stateResp r s2 h
    subst hs2
    exact ⟨f1, f2, f3, f4, f5,
      fun ht => by rw [get_application_id_stable s byName false ht]⟩
  · intro r s2 h
    have hs2 := kill_ok_session s byName states superKillResult maxPoll r s2 h
    subst hs2
    exact ⟨f1, f2, f3, f4, f5,
      fun ht => by rw [get_application_id_stable s byName false ht]⟩
  · intro a hid hq hlen
    constructor
    · intro r s2 h
      have hs2 := poll_ok_session s byName stateResp r s2 h
      subst hs2
      exact get_application_id_adopts s byName a hid hq hlen
    · intro r s2 h
      have hs2 := kill_ok_session s byName states superKillResult maxPoll r s2 h
      subst hs2
      exact get_application_id_adopts s byName a hid hq hlen

/-- C10 witness: a steady-state `poll` on a fresh session whose only name
match is already KILLED adopts that application's id and reports it dead. -/
theorem c10_poll_kill_frame_witness :
    poll freshSession (some [appKilled002]) (some "KILLED") =
      Except.ok (some false, ⟨some "app_002", "kernel-abc", "", "", none, 0⟩) ∧
    appKilled002.state ∈ final_states ∧
    (⟨some "app_002", "kernel-abc", "", "", none, 0⟩ : Session).application_id =
      some "app_002" := by
  refine ⟨rfl, by decide, ?_⟩
  exact ((c10_poll_kill_frame freshSession (some [appKilled002]) (some "KILLED")
    (fun _ => none) none max_poll_attempts).2.2 appKilled002 rfl (by decide)
    (by decide)).1 (some false) ⟨some "app_002", "kernel-abc", "", "", none, 0⟩ rfl

end YarnKP
